import Mathlib

/-!
Shallow embedding of the authentication core of the `yandex_bank_api`
repository (Rust), covering:

* `src/infrastructure/security.rs` — password hashing (Argon2id via the
  `argon2` crate) and JWT issuance/validation (via the `jsonwebtoken`
  crate with HMAC-SHA256 and a 60-second expiry leeway);
* `src/application/auth_service.rs` — `AuthService::register_user`,
  `AuthService::login`, `AuthService::get_token`;
* `src/data/user_repository.rs` — `InMemoryUserRepository` over a
  `HashMap<String, User>` keyed by user id;
* `src/presentation/middleware.rs` — `JwtAuthMiddleware` request gating.

The cryptographic primitives (Argon2id, HMAC-SHA256) live in external
crates, so they are modelled as ideal primitives: a digest or MAC is
represented by the exact inputs that produced it, which makes the
primitive injective and collision-free (the standard ideal-function
model).  Environment-provided randomness (salts, fresh UUIDs) and the
current time become explicit parameters.  Fallible external calls are
threaded as `Except` values.
-/

namespace YandexBankApi

/-! ### Credential hasher (`src/infrastructure/security.rs`, lines 8-46) -/

/-- `const ARGON2_M_COST: u32 = 19456` (19 MB memory cost). -/
def ARGON2_M_COST : Nat := 19456

/-- `const ARGON2_T_COST: u32 = 2` (2 iterations). -/
def ARGON2_T_COST : Nat := 2

/-- `const ARGON2_P_COST: u32 = 1` (parallelism 1). -/
def ARGON2_P_COST : Nat := 1

/-- Ideal model of the Argon2id digest: the digest produced from a
password and a salt is represented by the pair of inputs, so two digests
are equal exactly when password and salt agree (ideal one-way function,
no collisions). -/
structure ArgonDigest where
  password : String
  salt : String
deriving DecidableEq, Repr

/-- The Argon2id primitive of the `argon2` crate in the ideal model. -/
def argon2id (password : String) (salt : String) : ArgonDigest :=
  { password := password, salt := salt }

/-- The parsed content of the PHC hash string returned by
`hash_password`: `$argon2id$v=19$m=19456,t=2,p=1$<salt>$<digest>`.
Two hash strings are equal iff their parsed contents are equal, so
inequality of `PasswordHash` values entails inequality of the strings. -/
structure PasswordHash where
  mCost : Nat
  tCost : Nat
  pCost : Nat
  salt : String
  digest : ArgonDigest
deriving DecidableEq, Repr

/-- `hash_password` (security.rs lines 20-31): generates a hash from the
password and a fresh random salt.  The salt, drawn from `OsRng` in the
Rust code, is an explicit parameter here. -/
def hash_password (password : String) (salt : String) : PasswordHash :=
  { mCost := ARGON2_M_COST, tCost := ARGON2_T_COST, pCost := ARGON2_P_COST,
    salt := salt, digest := argon2id password salt }

/-- `verify_password` (security.rs lines 33-46): re-hashes the candidate
password with the salt embedded in the stored hash and compares digests.
The Rust function returns `Result<bool, Error>` where `Err` occurs only
when the stored hash string is unparseable; a `PasswordHash` value is
always well-formed, so that branch is unreachable in the model. -/
def verify_password (password : String) (h : PasswordHash) : Bool :=
  argon2id password h.salt == h.digest

/-! ### Token codec (`src/infrastructure/security.rs`, lines 13-18 and 48-80) -/

/-- `struct Claims { sub, exp, iat }` (security.rs lines 13-18). -/
structure Claims where
  sub : String
  exp : Nat
  iat : Nat
deriving DecidableEq, Repr

/-- Ideal model of the HMAC-SHA256 tag over the encoded claims: the tag
is represented by the key and the signed content, so it verifies exactly
under the key that produced it (ideal MAC, unforgeable). -/
structure MacTag where
  secret : String
  signed : Claims
deriving DecidableEq, Repr

/-- The HMAC-SHA256 primitive of the `jsonwebtoken` crate in the ideal
model. -/
def hmac_sha256 (secret : String) (claims : Claims) : MacTag :=
  { secret := secret, signed := claims }

/-- A compact JWT `header.payload.signature` string produced by
`jsonwebtoken::encode` with `Header::new(Algorithm::HS256)`, modelled by
its decoded content: the claims payload and the MAC tag. -/
structure Token where
  claims : Claims
  tag : MacTag
deriving DecidableEq, Repr

/-- Errors of `jsonwebtoken` validation relevant to the model. -/
inductive JwtError where
  | InvalidSignature
  | ExpiredSignature
deriving DecidableEq, Repr

/-- `generate_token` (security.rs lines 48-67) at a given current epoch
second `now` (the Rust code reads `SystemTime::now()` and truncates to
seconds): claims are `sub = user_id`, `exp = now + 3600`, `iat = now`,
signed with HMAC-SHA256 under `secret`. -/
def generate_token (user_id : String) (secret : String) (now : Nat) : Token :=
  let exp := now + 3600
  let claims : Claims := { sub := user_id, exp := exp, iat := now }
  { claims := claims, tag := hmac_sha256 secret claims }

/-- `generate_token` with the system clock read at millisecond
resolution: `Duration::as_secs` truncates the sub-second part, so the
epoch second is `nowMillis / 1000`. -/
def generate_token_at_millis (user_id : String) (secret : String)
    (nowMillis : Nat) : Token :=
  generate_token user_id secret (nowMillis / 1000)

/-- `validate_token` (security.rs lines 69-80): `jsonwebtoken::decode`
first verifies the HMAC-SHA256 tag, then checks expiry with
`validation.leeway = 60`: the crate rejects when `exp < now - leeway`,
i.e. when `now > exp + 60`, and returns `claims.sub` otherwise. -/
def validate_token (tok : Token) (secret : String) (now : Nat) :
    Except JwtError String :=
  if tok.tag ≠ hmac_sha256 secret tok.claims then
    .error .InvalidSignature
  else if tok.claims.exp + 60 < now then
    .error .ExpiredSignature
  else
    .ok tok.claims.sub

/-! ### Domain model (`src/domain/error.rs`, `src/domain/user.rs`) -/

/-- `enum DomainError` (error.rs lines 3-19). -/
inductive DomainError where
  | InsufficientFunds
  | AccountNotFound
  | InvalidAmount
  | Validation (msg : String)
  | NotFound (msg : String)
  | Unauthorized (msg : String)
  | Internal (msg : String)
deriving DecidableEq, Repr

/-- `struct User { id, email, password_hash }`; `password_hash` is the
PHC string, held here in parsed form. -/
structure User where
  id : String
  email : String
  password_hash : PasswordHash
deriving DecidableEq, Repr

/-- `struct CreateUser { email, password }`. -/
structure CreateUser where
  email : String
  password : String
deriving DecidableEq, Repr

/-- `struct LoginRequest { email, password }`. -/
structure LoginRequest where
  email : String
  password : String
deriving DecidableEq, Repr

/-! ### User store (`src/data/user_repository.rs`)

The `HashMap<String, User>` keyed by user id is modelled as a list of
users with at most one entry per id; `insert` replaces any entry with
the same id. -/

/-- `InMemoryUserRepository::save_user` (user_repository.rs lines
31-43): `storage.insert(user.id.clone(), user.clone())` — inserts the
user under its id, overwriting an existing entry with that id. -/
def save_user (store : List User) (user : User) : List User :=
  user :: store.filter (fun u => u.id != user.id)

/-- `InMemoryUserRepository::find_user_by_email` (user_repository.rs
lines 45-64): `storage.values().find(|u| u.email == email)`. -/
def find_user_by_email (store : List User) (email : String) : Option User :=
  store.find? (fun u => u.email == email)

/-- `InMemoryUserRepository::find_user_by_id` (user_repository.rs lines
66-85): `storage.get(id)`. -/
def find_user_by_id (store : List User) (id : String) : Option User :=
  store.find? (fun u => u.id == id)

/-! ### Auth service (`src/application/auth_service.rs`)

Each operation takes the store state explicitly; `register_user` also
returns the updated store.  The fresh UUID v4 id and the outcome of the
fallible Argon2 primitive call are explicit parameters (`hashRes` is
`.ok` with the fresh-salt hash on success, `.error` on primitive
failure). -/

/-- `AuthService::register_user` (auth_service.rs lines 24-63):
duplicate-email check via `find_user_by_email`, then password hashing
(failure mapped to `DomainError::Internal`), then `save_user` with a
fresh id.  Returns the call result and the resulting store state. -/
def register_user (store : List User) (req : CreateUser)
    (hashRes : Except String PasswordHash) (fresh_id : String) :
    Except DomainError User × List User :=
  if (find_user_by_email store req.email).isSome then
    (.error (.Validation "User with this email already exists"), store)
  else
    match hashRes with
    | .error e => (.error (.Internal ("Failed to hash password: " ++ e)), store)
    | .ok h =>
      let user : User := { id := fresh_id, email := req.email, password_hash := h }
      (.ok user, save_user store user)

/-- `AuthService::login` (auth_service.rs lines 66-102): look up by
email (missing → `Unauthorized("Invalid email or password")`), verify
the password (false → the same `Unauthorized` failure), then issue a
token for the id of the user at the current time. -/
def login (store : List User) (jwt_secret : String) (now : Nat)
    (req : LoginRequest) : Except DomainError Token :=
  match find_user_by_email store req.email with
  | none => .error (.Unauthorized "Invalid email or password")
  | some user =>
    if verify_password req.password user.password_hash then
      .ok (generate_token user.id jwt_secret now)
    else
      .error (.Unauthorized "Invalid email or password")

/-- `AuthService::get_token` (auth_service.rs lines 105-131): look up by
id (missing → `NotFound`), then issue a token for that id. -/
def get_token (store : List User) (jwt_secret : String) (now : Nat)
    (user_id : String) : Except DomainError Token :=
  match find_user_by_id store user_id with
  | none => .error (.NotFound ("User not found: " ++ user_id))
  | some user => .ok (generate_token user.id jwt_secret now)

/-- One sequential `AuthService` call with its environment-provided
inputs (fresh id and hashing outcome for `register`). -/
inductive AuthOp where
  | register (req : CreateUser) (hashRes : Except String PasswordHash)
      (fresh_id : String)
  | login (req : LoginRequest)
  | getToken (user_id : String)

/-- Store state after one `AuthService` call: `login` and `get_token`
only read the store, `register_user` may extend it. -/
def run_op (store : List User) : AuthOp → List User
  | .register req hashRes fresh_id => (register_user store req hashRes fresh_id).2
  | .login _ => store
  | .getToken _ => store

/-- Store state after a sequence of sequential `AuthService` calls. -/
def run_ops (store : List User) : List AuthOp → List User
  | [] => store
  | op :: ops => run_ops (run_op store op) ops

/-- No two distinct users in the store share an email. -/
def emails_unique (store : List User) : Prop :=
  store.Pairwise (fun u v => u.email ≠ v.email)

/-! ### Auth middleware (`src/presentation/middleware.rs`) -/

/-- The part of a `ServiceRequest` the JWT middleware inspects: the path
and the `Authorization` header (`none` when the header is absent or not
valid UTF-8, since the Rust code folds `to_str()` failure into absence). -/
structure HttpRequest where
  path : String
  authorization : Option String
deriving DecidableEq, Repr

/-- The Rust `str::starts_with` function on strings, computed over the character
sequences. -/
def starts_with (s pre : String) : Bool :=
  List.isPrefixOf pre.data s.data

/-- `JwtAuthMiddleware::is_public_route` (middleware.rs lines 208-210):
`path == "/api/health" || path.starts_with("/api/auth/")`. -/
def is_public_route (path : String) : Bool :=
  path == "/api/health" || starts_with path "/api/auth/"

/-- The public routes the specification lists by name (health check,
registration, login, direct token issuance), as registered in
`src/main.rs` lines 109-112.  Modelled from the words of the spec, for
comparison with `is_public_route`. -/
def spec_listed_public_routes : List String :=
  ["/api/health", "/api/auth/register", "/api/auth/login", "/api/auth/token"]

/-- `s.strip_prefix("Bearer ")` from middleware.rs line 267. -/
def bearer_token (s : String) : Option String :=
  if starts_with s "Bearer " then some (s.drop 7) else none

/-- Outcome of one `JwtAuthMiddlewareService::call`: pass through
without validation (public route), reject with
`ErrorUnauthorized(msg)`, or pass through with the authenticated
user id attached to the request extensions. -/
inductive MwOutcome where
  | passthroughPublic
  | unauthorized (msg : String)
  | passthroughAuthenticated (user_id : String)
deriving DecidableEq, Repr

/-- `JwtAuthMiddlewareService::call` (middleware.rs lines 250-306):
public routes skip validation; otherwise the `Authorization` header is
read and `strip_prefix("Bearer ")` applied (no header, or a header
without that prefix, yields `unauthorized "missing bearer"`); the
remaining token string goes to `validate_token`, whose failure yields
`unauthorized "invalid token"` and whose success attaches the user id.
The token-string validator is a parameter: the middleware composes with
`validate_token` over the wire format, and every property proved for
all `validate` holds in particular for the real composition. -/
def jwt_auth_call (validate : String → Except JwtError String)
    (req : HttpRequest) : MwOutcome :=
  if is_public_route req.path then
    .passthroughPublic
  else
    match req.authorization.bind bearer_token with
    | none => .unauthorized "missing bearer"
    | some token =>
      match validate token with
      | .error _ => .unauthorized "invalid token"
      | .ok user_id => .passthroughAuthenticated user_id

/-! ### Claims about the token codec and the hasher -/

/-- Claim C1: token round-trip — for every subject and every secret,
validating a token immediately after issuing it with the same secret
succeeds and returns exactly that subject. -/
theorem token_round_trip (sub secret : String) (now : Nat) :
    validate_token (generate_token sub secret now) secret now = .ok sub := by
  unfold validate_token generate_token
  simp
  omega

/-- Claim C4: password hashing is non-deterministic yet verifiable —
two calls to `hash_password` on the same password with distinct fresh
salts produce different hashes, while verifying a password against any
hash produced from it succeeds. -/
theorem hash_nondeterministic_yet_verifiable (p s1 s2 : String)
    (hs : s1 ≠ s2) :
    hash_password p s1 ≠ hash_password p s2 ∧
    ∀ s : String, verify_password p (hash_password p s) = true := by
  constructor
  · intro hc
    exact hs (congrArg PasswordHash.salt hc)
  · intro s
    simp [verify_password, hash_password, argon2id]

/-- Witness for C4 at password `"pw"` and salts `"s1"`, `"s2"`. -/
theorem hash_nondeterministic_yet_verifiable_witness :
    hash_password "pw" "s1" ≠ hash_password "pw" "s2" ∧
    verify_password "pw" (hash_password "pw" "s1") = true :=
  ⟨(hash_nondeterministic_yet_verifiable "pw" "s1" "s2" (by decide)).1,
   (hash_nondeterministic_yet_verifiable "pw" "s1" "s2" (by decide)).2 "s1"⟩

/-- Claim C5: token lifetime arithmetic — a token issued at epoch
second `t` carries `iat = t` and `exp = t + 3600`; validating any token
at a time more than 60 seconds past its `exp` fails; and the leeway is
exactly 60 seconds: at `exp + 60` a genuine token still validates. -/
theorem token_lifetime (sub secret : String) (t : Nat) (tok : Token)
    (secret2 : String) (now : Nat) (hlate : tok.claims.exp + 60 < now) :
    (generate_token sub secret t).claims.iat = t ∧
    (generate_token sub secret t).claims.exp = t + 3600 ∧
    (∃ e, validate_token tok secret2 now = .error e) ∧
    validate_token (generate_token sub secret t) secret
      (t + 3600 + 60) = .ok sub := by
  refine ⟨rfl, rfl, ?_, ?_⟩
  · unfold validate_token
    by_cases hsig : tok.tag ≠ hmac_sha256 secret2 tok.claims
    · exact ⟨.InvalidSignature, by simp [hsig]⟩
    · exact ⟨.ExpiredSignature, by simp [hsig, hlate]⟩
  · unfold validate_token generate_token
    simp

/-- Witness for C5: issuance at second 5, and a token whose `exp` is
3600 checked at second 5000. -/
theorem token_lifetime_witness :
    (generate_token "u" "s" 5).claims.iat = 5 ∧
    (generate_token "u" "s" 5).claims.exp = 5 + 3600 ∧
    (∃ e, validate_token (generate_token "u" "s" 0) "s" 5000 = .error e) ∧
    validate_token (generate_token "u" "s" 5) "s" (5 + 3600 + 60) = .ok "u" :=
  token_lifetime "u" "s" 5 (generate_token "u" "s" 0) "s" 5000 (by decide)

/-- Claim C7: same-second determinism — two issuances for the same
subject and secret whose clock readings fall in the same epoch second
yield identical claims and identical tokens. -/
theorem same_second_token_determinism (sub secret : String)
    (t1 t2 : Nat) (hsec : t1 / 1000 = t2 / 1000) :
    (generate_token_at_millis sub secret t1).claims =
      (generate_token_at_millis sub secret t2).claims ∧
    generate_token_at_millis sub secret t1 =
      generate_token_at_millis sub secret t2 := by
  unfold generate_token_at_millis
  rw [hsec]
  exact ⟨rfl, rfl⟩

/-- Witness for C7 at clock readings 1500 ms and 1999 ms (both within
epoch second 1). -/
theorem same_second_token_determinism_witness :
    (generate_token_at_millis "u" "s" 1500).claims =
      (generate_token_at_millis "u" "s" 1999).claims ∧
    generate_token_at_millis "u" "s" 1500 =
      generate_token_at_millis "u" "s" 1999 :=
  same_second_token_determinism "u" "s" 1500 1999 (by decide)

/-! ### Claims about the auth service -/

/-- Claim C3: user-enumeration resistance of login — a nonexistent
email and a wrong password for an existing email fail with the same
error class and message `Unauthorized "Invalid email or password"`, so
the two failure runs return equal results. -/
theorem login_failure_indistinguishable (store1 store2 : List User)
    (jwt_secret : String) (now : Nat) (req1 req2 : LoginRequest) (u : User)
    (hmiss : find_user_by_email store1 req1.email = none)
    (hhit : find_user_by_email store2 req2.email = some u)
    (hwrong : verify_password req2.password u.password_hash = false) :
    login store1 jwt_secret now req1 =
      .error (.Unauthorized "Invalid email or password") ∧
    login store2 jwt_secret now req2 =
      .error (.Unauthorized "Invalid email or password") ∧
    login store1 jwt_secret now req1 = login store2 jwt_secret now req2 := by
  have e1 : login store1 jwt_secret now req1 =
      .error (.Unauthorized "Invalid email or password") := by
    unfold login
    rw [hmiss]
  have e2 : login store2 jwt_secret now req2 =
      .error (.Unauthorized "Invalid email or password") := by
    unfold login
    rw [hhit]
    simp [hwrong]
  exact ⟨e1, e2, e1.trans e2.symm⟩

/-- Witness for C3: an empty store misses `a@x.com`, and a store
holding a user registered under `b@x.com` rejects a wrong password. -/
theorem login_failure_indistinguishable_witness :
    login [] "sec" 7 { email := "a@x.com", password := "pw" } =
      .error (.Unauthorized "Invalid email or password") ∧
    login [{ id := "id1", email := "b@x.com",
             password_hash := hash_password "right" "salt" }] "sec" 7
        { email := "b@x.com", password := "wrong" } =
      .error (.Unauthorized "Invalid email or password") ∧
    login [] "sec" 7 { email := "a@x.com", password := "pw" } =
      login [{ id := "id1", email := "b@x.com",
               password_hash := hash_password "right" "salt" }] "sec" 7
        { email := "b@x.com", password := "wrong" } :=
  login_failure_indistinguishable []
    [{ id := "id1", email := "b@x.com",
       password_hash := hash_password "right" "salt" }]
    "sec" 7 { email := "a@x.com", password := "pw" }
    { email := "b@x.com", password := "wrong" }
    { id := "id1", email := "b@x.com",
      password_hash := hash_password "right" "salt" }
    (by decide) (by decide) (by decide)

/-- Claim C8: duplicate registration rejection — `register_user` fails
with `Validation "User with this email already exists"` iff a user with
that exact email is in the store at the start of the call; in
particular, after a successful registration of an email, registering
the same email again fails with that `Validation` error. -/
theorem duplicate_registration_rejection (store : List User)
    (req : CreateUser) (hashRes : Except String PasswordHash)
    (fresh_id : String) :
    ((register_user store req hashRes fresh_id).1 =
        .error (.Validation "User with this email already exists") ↔
      ∃ u ∈ store, u.email = req.email) ∧
    ∀ (h : PasswordHash) (u : User) (req2 : CreateUser)
      (hashRes2 : Except String PasswordHash) (fresh_id2 : String),
      req2.email = req.email →
      (register_user store req (.ok h) fresh_id).1 = .ok u →
      (register_user (register_user store req (.ok h) fresh_id).2
          req2 hashRes2 fresh_id2).1 =
        .error (.Validation "User with this email already exists") := by
  constructor
  · unfold register_user
    by_cases hf : (find_user_by_email store req.email).isSome
    · simp only [hf, if_true]
      constructor
      · intro _
        obtain ⟨u, hu, hpu⟩ := List.find?_isSome.mp hf
        exact ⟨u, hu, by simpa using hpu⟩
      · intro _
        trivial
    · simp only [hf, if_false]
      constructor
      · intro hcontra
        cases hashRes with
        | error e => simp at hcontra
        | ok h => simp at hcontra
      · rintro ⟨u, hu, hue⟩
        exact absurd (List.find?_isSome.mpr ⟨u, hu, by simpa using hue⟩) hf
  · intro h u req2 hashRes2 fresh_id2 heq hok
    have hf : (find_user_by_email store req.email).isSome = false := by
      by_contra hc
      simp only [Bool.not_eq_false] at hc
      unfold register_user at hok
      simp [hc] at hok
    have hstore2 : (register_user store req (.ok h) fresh_id).2 =
        save_user store { id := fresh_id, email := req.email,
                          password_hash := h } := by
      unfold register_user
      simp [hf]
    rw [hstore2]
    unfold register_user
    have hfind : (find_user_by_email
        (save_user store { id := fresh_id, email := req.email,
                           password_hash := h }) req2.email).isSome := by
      unfold find_user_by_email save_user
      refine List.find?_isSome.mpr ?_
      exact ⟨{ id := fresh_id, email := req.email, password_hash := h },
        List.mem_cons_self _ _, by simp [heq]⟩
    simp [hfind]

/-- Witness for C8: an empty store accepts `a@x.com` once and rejects
it the second time; the iff instance is taken on a store already
holding that email. -/
theorem duplicate_registration_rejection_witness :
    ((register_user
        [{ id := "id0", email := "a@x.com",
           password_hash := hash_password "pw" "s0" }]
        { email := "a@x.com", password := "pw" }
        (.ok (hash_password "pw" "s1")) "id1").1 =
      .error (.Validation "User with this email already exists") ↔
      ∃ u ∈ ([{ id := "id0", email := "a@x.com",
                password_hash := hash_password "pw" "s0" }] : List User),
        u.email = "a@x.com") ∧
    (register_user
        (register_user [] { email := "a@x.com", password := "pw" }
          (.ok (hash_password "pw" "s1")) "id1").2
        { email := "a@x.com", password := "pw2" }
        (.ok (hash_password "pw2" "s2")) "id2").1 =
      .error (.Validation "User with this email already exists") :=
  ⟨(duplicate_registration_rejection
      [{ id := "id0", email := "a@x.com",
         password_hash := hash_password "pw" "s0" }]
      { email := "a@x.com", password := "pw" }
      (.ok (hash_password "pw" "s1")) "id1").1,
   (duplicate_registration_rejection []
      { email := "a@x.com", password := "pw" }
      (.ok (hash_password "pw" "s1")) "id1").2
     (hash_password "pw" "s1")
     { id := "id1", email := "a@x.com",
       password_hash := hash_password "pw" "s1" }
     { email := "a@x.com", password := "pw2" }
     (.ok (hash_password "pw2" "s2")) "id2" rfl rfl⟩

/-- Claim C9: registration atomicity on error — whenever
`register_user` fails (duplicate email or hashing error), the store is
returned unchanged; `save_user` happens only after both the uniqueness
check and the hashing succeed. -/
theorem register_failure_leaves_store_unchanged (store : List User)
    (req : CreateUser) (hashRes : Except String PasswordHash)
    (fresh_id : String) (e : DomainError)
    (hfail : (register_user store req hashRes fresh_id).1 = .error e) :
    (register_user store req hashRes fresh_id).2 = store := by
  unfold register_user at hfail ⊢
  by_cases hf : (find_user_by_email store req.email).isSome
  · simp [hf]
  · cases hashRes with
    | error msg => simp [hf]
    | ok h => simp [hf] at hfail

/-- Witness for C9: registering a duplicate email fails and leaves the
one-user store intact. -/
theorem register_failure_leaves_store_unchanged_witness :
    (register_user
        [{ id := "id0", email := "a@x.com",
           password_hash := hash_password "pw" "s0" }]
        { email := "a@x.com", password := "pw2" }
        (.ok (hash_password "pw2" "s1")) "id1").2 =
      [{ id := "id0", email := "a@x.com",
         password_hash := hash_password "pw" "s0" }] :=
  register_failure_leaves_store_unchanged
    [{ id := "id0", email := "a@x.com",
       password_hash := hash_password "pw" "s0" }]
    { email := "a@x.com", password := "pw2" }
    (.ok (hash_password "pw2" "s1")) "id1"
    (.Validation "User with this email already exists") rfl

/-- Helper: a successful uniqueness check means no stored user carries
the requested email. -/
theorem find_user_by_email_none (store : List User) (email : String)
    (hnone : (find_user_by_email store email).isSome = false) :
    ∀ u ∈ store, u.email ≠ email := by
  intro u hu
  unfold find_user_by_email at hnone
  have h2 : ∀ x ∈ store, ¬x.email = email := by simpa using hnone
  exact h2 u hu

/-- Helper: one `register_user` call preserves email uniqueness: it
inserts only after checking that the email is absent, and `save_user`
at worst replaces an entry with the same id. -/
theorem register_user_preserves_emails_unique (store : List User)
    (req : CreateUser) (hashRes : Except String PasswordHash)
    (fresh_id : String) (huniq : emails_unique store) :
    emails_unique (register_user store req hashRes fresh_id).2 := by
  unfold register_user
  by_cases hf : (find_user_by_email store req.email).isSome
  · simpa [hf] using huniq
  · cases hashRes with
    | error e => simpa [hf] using huniq
    | ok h =>
      simp only [hf, Bool.false_eq_true, if_false]
      unfold emails_unique save_user
      rw [List.pairwise_cons]
      constructor
      · intro v hv
        have hvs : v ∈ store := List.mem_of_mem_filter hv
        exact fun hc => find_user_by_email_none store req.email
          (by simpa using hf) v hvs hc.symm
      · exact huniq.filter _

/-- Helper: email uniqueness is preserved by every sequence of
sequential `AuthService` calls. -/
theorem run_ops_preserves_emails_unique (ops : List AuthOp)
    (store : List User) (huniq : emails_unique store) :
    emails_unique (run_ops store ops) := by
  induction ops generalizing store with
  | nil => exact huniq
  | cons op ops ih =>
    cases op with
    | register req hashRes fresh_id =>
      exact ih _ (register_user_preserves_emails_unique store req
        hashRes fresh_id huniq)
    | login req => exact ih _ huniq
    | getToken user_id => exact ih _ huniq

/-- Claim C6: email-uniqueness invariant — starting from the empty user
store, after every sequence of sequential `AuthService` operations the
store never holds two distinct users with the same email. -/
theorem email_uniqueness_invariant (ops : List AuthOp) :
    emails_unique (run_ops [] ops) :=
  run_ops_preserves_emails_unique ops [] List.Pairwise.nil

/-! ### Claims about the auth middleware -/

/-- Counterexample to C2 as stated: the path `/api/auth/admin` is not
one of the public routes the spec lists (health check, registration,
login, token issuance), yet the middleware passes the request through
without a bearer and without invoking token validation, because
`is_public_route` matches every path with the prefix `/api/auth/`. -/
theorem public_route_predicate_counterexample :
    "/api/auth/admin" ∉ spec_listed_public_routes ∧
    jwt_auth_call (fun _ => .error .InvalidSignature)
      { path := "/api/auth/admin", authorization := none } =
      .passthroughPublic := by
  constructor
  · decide
  · rfl

/-- Claim C2 (amended): the middleware skips token validation exactly
for paths matching `is_public_route` — equality with `/api/health` or
the prefix `/api/auth/` (which covers registration, login and token
issuance but also every other `/api/auth/`-prefixed path); for every
other path, a request without an `Authorization` header fails with
`Unauthorized "missing bearer"`, for every token validator. -/
theorem protected_route_requires_bearer
    (validate : String → Except JwtError String) (req : HttpRequest) :
    (is_public_route req.path = false → req.authorization = none →
      jwt_auth_call validate req = .unauthorized "missing bearer") ∧
    (is_public_route req.path = true →
      jwt_auth_call validate req = .passthroughPublic) := by
  constructor
  · intro hpriv hnone
    unfold jwt_auth_call
    rw [hnone]
    simp [hpriv]
  · intro hpub
    unfold jwt_auth_call
    simp [hpub]

/-- Witness for C2 (amended): a header-less request to the protected
path `/api/accounts` is rejected with `missing bearer`, and a request
to the public path `/api/health` passes through, under a concrete
validator. -/
theorem protected_route_requires_bearer_witness :
    jwt_auth_call (fun _ => .error .InvalidSignature)
      { path := "/api/accounts", authorization := none } =
      .unauthorized "missing bearer" ∧
    jwt_auth_call (fun _ => .error .InvalidSignature)
      { path := "/api/health", authorization := none } =
      .passthroughPublic :=
  ⟨(protected_route_requires_bearer (fun _ => .error .InvalidSignature)
      { path := "/api/accounts", authorization := none }).1 rfl rfl,
   (protected_route_requires_bearer (fun _ => .error .InvalidSignature)
      { path := "/api/health", authorization := none }).2 rfl⟩

/-- Claim C10: a protected-route request whose `Authorization` header
is present but does not start with `"Bearer "` is rejected with
`Unauthorized "missing bearer"` — the same outcome as for an absent
header — and token validation is never invoked: the outcome is the
same under every pair of validators. -/
theorem non_bearer_header_treated_as_absent
    (validate validate2 : String → Except JwtError String)
    (req : HttpRequest) (s : String)
    (hpriv : is_public_route req.path = false)
    (hauth : req.authorization = some s)
    (hnobearer : starts_with s "Bearer " = false) :
    jwt_auth_call validate req = .unauthorized "missing bearer" ∧
    jwt_auth_call validate req = jwt_auth_call validate2 req := by
  have hbt : bearer_token s = none := by
    unfold bearer_token
    simp [hnobearer]
  have key : ∀ v : String → Except JwtError String,
      jwt_auth_call v req = .unauthorized "missing bearer" := by
    intro v
    unfold jwt_auth_call
    rw [hauth]
    simp [hpriv, Option.bind, hbt]
  exact ⟨key validate, (key validate).trans (key validate2).symm⟩

/-- Witness for C10: a `Basic` credential on the protected path
`/api/accounts` is rejected as `missing bearer` under two different
validators, one of which would accept the string. -/
theorem non_bearer_header_treated_as_absent_witness :
    jwt_auth_call (fun _ => .ok "u1")
      { path := "/api/accounts",
        authorization := some "Basic dXNlcjpwYXNz" } =
      .unauthorized "missing bearer" ∧
    jwt_auth_call (fun _ => .ok "u1")
      { path := "/api/accounts",
        authorization := some "Basic dXNlcjpwYXNz" } =
      jwt_auth_call (fun _ => .error .InvalidSignature)
        { path := "/api/accounts",
          authorization := some "Basic dXNlcjpwYXNz" } :=
  non_bearer_header_treated_as_absent (fun _ => .ok "u1")
    (fun _ => .error .InvalidSignature)
    { path := "/api/accounts", authorization := some "Basic dXNlcjpwYXNz" }
    "Basic dXNlcjpwYXNz" rfl rfl (by decide)

end YandexBankApi
